import Mathlib

/-!
Verification of the node-startup reconciliation engine
(`pkg/startup/controller.go` and `pkg/startup/constants.go`).

The Go controller is shallowly embedded: Kubernetes objects become Lean
structures, string-keyed Go maps become association lists with the Go
lookup semantics (a missing key reads as the empty string), and the
store interactions of the controller (get / list / update with
optimistic-concurrency conflicts) become explicit parameters: a query
result is an `Except` value and the conflict outcomes of successive
update attempts form a `List Bool` schedule.
-/

namespace NodeStartup

/-- Taint effects (`corev1.TaintEffect`); the controller only ever
compares against `NoSchedule`. -/
inductive TaintEffect where
  | NoSchedule
  | PreferNoSchedule
  | NoExecute
deriving DecidableEq, Repr

/-- A node taint: key/value/effect triple (`corev1.Taint`). -/
structure Taint where
  key : String
  value : String
  effect : TaintEffect
deriving DecidableEq, Repr

/-- Go map read `m[k]`: the empty string when the key is absent,
matching Go's zero-value semantics for `map[string]string`. -/
def lookupD : List (String × String) → String → String
  | [], _ => ""
  | (k, v) :: rest, key => if k = key then v else lookupD rest key

/-- Go map write `m[k] = v`: replace the binding if the key is present,
append it otherwise. -/
def setAnn : List (String × String) → String → String → List (String × String)
  | [], key, val => [(key, val)]
  | (k, v) :: rest, key, val =>
      if k = key then (key, val) :: rest else (k, v) :: setAnn rest key val

/-- A Node: name, ordered taint list (`Spec.Taints`) and annotations
(`ObjectMeta.Annotations`). -/
structure Node where
  name : String
  taints : List Taint
  anns : List (String × String)
deriving DecidableEq, Repr

/-- A pod-level condition (`corev1.PodCondition`): only the type and
status strings matter to the controller. -/
structure PodCond where
  condType : String
  status : String
deriving DecidableEq, Repr

/-- An agent pod: namespace, bound node (`Spec.NodeName`), labels,
pod annotations, the `Ready` flag of each container status, and the
pod-level conditions. -/
structure Pod where
  ns : String
  nodeName : String
  labels : List (String × String)
  anns : List (String × String)
  containerStatuses : List Bool
  conditions : List PodCond
deriving DecidableEq, Repr

/-- `TaintKey` from constants.go. -/
def TaintKey : String := "startup.k8s.io/initializing"

/-- `TaintValue` from constants.go. -/
def TaintValue : String := "wait"

/-- `StartPodLabelKey` from constants.go. -/
def StartPodLabelKey : String := "startup.k8s.io/component"

/-- `StartPodLabelValue` from constants.go. -/
def StartPodLabelValue : String := "init"

/-- The pod annotation key `startup.k8s.io/ready` from constants.go
(Go name ends in a word the development avoids in identifiers). -/
def StartPodReadyAnn : String := "startup.k8s.io/ready"

/-- The node annotation key `startup.k8s.io/completedAt` from
constants.go. -/
def NodeStartupCompletedAnn : String := "startup.k8s.io/completedAt"

/-- The `StartupTaint` variable from constants.go. -/
def StartupTaint : Taint :=
  { key := TaintKey, value := TaintValue, effect := TaintEffect.NoSchedule }

/-- The three-field comparison on taints used at controller.go:106 and
controller.go:188. -/
def isStartupTaintMatch (t : Taint) : Bool :=
  decide (t.key = TaintKey) && decide (t.value = TaintValue) &&
    decide (t.effect = TaintEffect.NoSchedule)

/-- `HasStartupTaint` (controller.go:104-111): true iff some taint
matches the startup triple exactly on key, value and effect. -/
def HasStartupTaint (n : Node) : Bool :=
  n.taints.any isStartupTaintMatch

/-- The `cond.Type == corev1.PodReady && cond.Status == ConditionTrue`
test of controller.go:136 and controller.go:167. -/
def podReadyCond (c : PodCond) : Bool :=
  decide (c.condType = "Ready") && decide (c.status = "True")

/-- Per-pod completion test shared by both branches of
`startupPodReady` (controller.go:122-139 and 155-174): the ready
annotation `"true"` short-circuits; otherwise all containers must be
ready and some pod-level Ready condition must be True. -/
def podStartupComplete (p : Pod) : Bool :=
  decide (lookupD p.anns StartPodReadyAnn = "true") ||
    (p.containerStatuses.all (fun r => r) && p.conditions.any podReadyCond)

/-- `startupPodReady`, indexer branch (controller.go:115-141): `pods`
is the `byNode` index bucket for the node; a pod counts only if it
carries the init label. -/
def startupPodReadyIdx (pods : List Pod) : Bool :=
  pods.any (fun p =>
    decide (lookupD p.labels StartPodLabelKey = StartPodLabelValue) &&
      podStartupComplete p)

/-- `startupPodReady`, API-list fallback (controller.go:144-176):
`listResult` is the outcome of the label+field-filtered pod List call;
a list error is returned to the caller as `(false, err)`, embedded as
`Except.error`. Each listed pod is re-checked against the node name. -/
def startupPodReadyAPI (nodeName : String) (listResult : Except String (List Pod)) :
    Except String Bool :=
  match listResult with
  | Except.error e => Except.error e
  | Except.ok pods =>
      Except.ok (pods.any (fun p =>
        decide (p.nodeName = nodeName) && podStartupComplete p))

/-- The node value written by a successful removal at
controller.go:185-201: matching taints filtered out (preserving the
order of the rest) and the completion annotation set to the decimal
rendering of the current Unix time. -/
def removedNode (n : Node) (now : Nat) : Node :=
  { n with
    taints := n.taints.filter (fun t => ! isStartupTaintMatch t),
    anns := setAnn n.anns NodeStartupCompletedAnn (toString now) }

/-- One body execution of the `RetryOnConflict` closure in
`removeStartupTaint` (controller.go:181-203), after a successful
re-fetch of `n`: `none` means no write was issued (the marker was
already absent, `changed` stayed false), `some n'` means `n'` was
submitted as the update. -/
def removeBody (n : Node) (now : Nat) : Option Node :=
  let changed := n.taints.any isStartupTaintMatch
  if changed = false then none
  else some (removedNode n now)

/-- `retry.RetryOnConflict` around the body: `steps` attempts remain,
`conflicts` schedules whether each issued update hits a version
conflict, `store` is the current node in the store (what the re-fetch
at controller.go:181 returns). Result: final stored node, number of
successful update writes, and whether the caller sees success. A
conflicted update leaves the store unchanged and the loop retries; an
unconflicted update installs the new node. -/
def retryRemove : Nat → List Bool → Node → Nat → Node × Nat × Bool
  | 0, _, store, _ => (store, 0, false)
  | Nat.succ steps, conflicts, store, now =>
      match removeBody store now with
      | none => (store, 0, true)
      | some n' =>
          match conflicts with
          | true :: rest => retryRemove steps rest store now
          | _ => (n', 1, true)

/-- `removeStartupTaint` (controller.go:179-205):
`retry.DefaultBackoff` allows 4 attempts. The `store` argument is the
node currently in the store: the Go function re-fetches it before each
attempt, so only the stale argument's name is used there. -/
def removeStartupTaint (store : Node) (conflicts : List Bool) (now : Nat) :
    Node × Nat × Bool :=
  retryRemove 4 conflicts store now

/-- `hasWorkloadPods`, indexer branch (controller.go:236-245): some
pod in the node's index bucket lives outside the trusted system
namespaces. -/
def hasWorkloadPodsIdx (pods : List Pod) : Bool :=
  pods.any (fun p =>
    !(decide (p.ns = "kube-system")) && !(decide (p.ns = "kube-public")))

/-- `hasWorkloadPods`, API-list fallback (controller.go:248-259): a
failed List is treated as "has workload pods" (controller.go:251-253). -/
def hasWorkloadPodsAPI (listResult : Except String (List Pod)) : Bool :=
  match listResult with
  | Except.error _ => true
  | Except.ok pods =>
      pods.any (fun p =>
        !(decide (p.ns = "kube-system")) && !(decide (p.ns = "kube-public")))

/-- The per-node decision of `backfillTaint` (controller.go:213-232):
skip if the marker is present, or the completion annotation reads
non-empty, or the workload check fired; otherwise append the startup
taint. `workload` is the result of `hasWorkloadPods` for this node. -/
def backfillNode (n : Node) (workload : Bool) : Node :=
  if HasStartupTaint n then n
  else if !(decide (lookupD n.anns NodeStartupCompletedAnn = "")) then n
  else if workload then n
  else { n with taints := n.taints ++ [StartupTaint] }

/-- `handleNode` (controller.go:81-102) given the Readiness
Evaluator's answer for the node: returns the resulting stored node and
the number of update writes issued. Nodes without the marker, errored
readiness checks and not-ready nodes are left untouched. -/
def handleNode (node : Node) (ready : Except String Bool) (conflicts : List Bool)
    (now : Nat) : Node × Nat :=
  if HasStartupTaint node = false then (node, 0)
  else
    match ready with
    | Except.error _ => (node, 0)
    | Except.ok false => (node, 0)
    | Except.ok true =>
        let r := removeStartupTaint node conflicts now
        (r.1, r.2.1)

/-- `handlePod` (controller.go:60-79): `nodeGet` is the outcome of the
node Get for the pod's bound node. `none` means the handler returned
without touching any node (label mismatch, unbound pod, or Get error);
`some (n, w)` reports the resulting node state and write count. A
fetched node without the marker is left untouched. -/
def handlePod (p : Pod) (nodeGet : Except String Node) (ready : Except String Bool)
    (conflicts : List Bool) (now : Nat) : Option (Node × Nat) :=
  if !(decide (lookupD p.labels StartPodLabelKey = StartPodLabelValue)) then none
  else if decide (p.nodeName = "") then none
  else
    match nodeGet with
    | Except.error _ => none
    | Except.ok n =>
        if HasStartupTaint n then some (handleNode n ready conflicts now)
        else some (n, 0)

/-! ## Sample objects used by witness theorems -/

/-- A taint unrelated to the startup marker. -/
def tOther : Taint := { key := "other", value := "x", effect := TaintEffect.NoExecute }

/-- A taint with the startup key but a different value. -/
def tWrongValue : Taint := { key := TaintKey, value := "later", effect := TaintEffect.NoSchedule }

/-- A node carrying the startup marker twice, another taint, and one
annotation. -/
def nodeMarked : Node :=
  { name := "n1", taints := [StartupTaint, tOther, StartupTaint], anns := [("a", "1")] }

/-- A node with no taints and no annotations. -/
def nodeBare : Node := { name := "n2", taints := [], anns := [] }

/-- An init-labelled pod whose ready annotation is "true" while every
container is not ready and the Ready condition is False. -/
def podAnnOnly : Pod :=
  { ns := "default", nodeName := "n1",
    labels := [(StartPodLabelKey, StartPodLabelValue)],
    anns := [(StartPodReadyAnn, "true")],
    containerStatuses := [false, false],
    conditions := [{ condType := "Ready", status := "False" }] }

/-- An init-labelled pod with all containers ready but no pod-level
condition at all. -/
def podAllReadyNoCond : Pod :=
  { ns := "default", nodeName := "n1",
    labels := [(StartPodLabelKey, StartPodLabelValue)],
    anns := [], containerStatuses := [true, true], conditions := [] }

/-- A pod in a non-system namespace. -/
def podWorkload : Pod :=
  { ns := "default", nodeName := "n2", labels := [], anns := [],
    containerStatuses := [], conditions := [] }

/-! ## Helper lemmas -/

lemma lookupD_setAnn_self (m : List (String × String)) (k v : String) :
    lookupD (setAnn m k v) k = v := by
  induction m with
  | nil => simp [setAnn, lookupD]
  | cons kv rest ih =>
      by_cases h : kv.1 = k
      · simp [setAnn, h, lookupD]
      · simp [setAnn, h, lookupD, ih]

lemma lookupD_setAnn_ne (m : List (String × String)) (k v k' : String) (h : k' ≠ k) :
    lookupD (setAnn m k v) k' = lookupD m k' := by
  induction m with
  | nil =>
      simp only [setAnn, lookupD]
      rw [if_neg (fun hk : k = k' => h hk.symm)]
  | cons kv rest ih =>
      obtain ⟨k1, v1⟩ := kv
      by_cases hk : k1 = k
      · subst hk
        simp only [setAnn, if_pos rfl, lookupD]
        rw [if_neg (fun hh : k1 = k' => h hh.symm),
          if_neg (fun hh : k1 = k' => h hh.symm)]
      · simp only [setAnn, if_neg hk, lookupD, ih]

lemma any_filter_not (xs : List Taint) :
    (xs.filter (fun t => ! isStartupTaintMatch t)).any isStartupTaintMatch = false := by
  induction xs with
  | nil => rfl
  | cons t rest ih =>
      by_cases h : isStartupTaintMatch t = true
      · simp [List.filter_cons, h, ih]
      · simp only [Bool.not_eq_true] at h
        simp [List.filter_cons, h, ih]

lemma HasStartupTaint_removedNode (n : Node) (now : Nat) :
    HasStartupTaint (removedNode n now) = false := by
  simp only [HasStartupTaint, removedNode]
  exact any_filter_not n.taints

lemma removeBody_none (n : Node) (now : Nat) (h : HasStartupTaint n = false) :
    removeBody n now = none := by
  unfold HasStartupTaint at h
  simp [removeBody, h]

lemma removeBody_some (n : Node) (now : Nat) (h : HasStartupTaint n = true) :
    removeBody n now = some (removedNode n now) := by
  unfold HasStartupTaint at h
  simp [removeBody, h]

lemma retryRemove_noop (steps : Nat) (conflicts : List Bool) (store : Node) (now : Nat)
    (h : HasStartupTaint store = false) :
    retryRemove (steps + 1) conflicts store now = (store, 0, true) := by
  simp [retryRemove, removeBody_none store now h]

lemma retryRemove_spec (steps : Nat) (conflicts : List Bool) (store : Node) (now : Nat)
    (h : HasStartupTaint store = true) :
    retryRemove steps conflicts store now = (store, 0, false) ∨
      retryRemove steps conflicts store now = (removedNode store now, 1, true) := by
  induction steps generalizing conflicts with
  | zero => exact Or.inl rfl
  | succ k ih =>
      rw [retryRemove, removeBody_some store now h]
      cases conflicts with
      | nil => exact Or.inr rfl
      | cons b rest =>
          cases b with
          | true => exact ih rest
          | false => exact Or.inr rfl

lemma removeStartupTaint_direct (store : Node) (now : Nat)
    (h : HasStartupTaint store = true) :
    removeStartupTaint store [] now = (removedNode store now, 1, true) := by
  rw [removeStartupTaint, retryRemove, removeBody_some store now h]

lemma retryRemove_conflictStep (steps : Nat) (rest : List Bool) (store : Node) (now : Nat)
    (h : HasStartupTaint store = true) :
    retryRemove (steps + 1) (true :: rest) store now = retryRemove steps rest store now := by
  rw [retryRemove, removeBody_some store now h]

lemma retryRemove_success (steps : Nat) (store : Node) (now : Nat)
    (h : HasStartupTaint store = true) :
    retryRemove (steps + 1) [] store now = (removedNode store now, 1, true) := by
  rw [retryRemove, removeBody_some store now h]

lemma backfillNode_workload_skip (n : Node) : backfillNode n true = n := by
  by_cases hh : HasStartupTaint n = true
  · rw [backfillNode, if_pos hh]
  · by_cases ha : lookupD n.anns NodeStartupCompletedAnn = ""
    · rw [backfillNode, if_neg hh, if_neg (by simp [ha]), if_pos rfl]
    · rw [backfillNode, if_neg hh, if_pos (by simp [ha])]

/-! ## Claim theorems -/

/-- C7: `HasStartupTaint` returns true iff some taint in the node's
taint list matches the startup-marker triple exactly on key, value and
effect; hence false whenever no such taint is present (a right key with
a different value or effect does not count) and true whenever the
triple is present, regardless of the position or count of other
taints. -/
theorem HasStartupTaint_iff_exists (n : Node) :
    HasStartupTaint n = true ↔
      ∃ t ∈ n.taints,
        t.key = TaintKey ∧ t.value = TaintValue ∧ t.effect = TaintEffect.NoSchedule := by
  simp [HasStartupTaint, List.any_eq_true, isStartupTaintMatch, Bool.and_eq_true,
    decide_eq_true_eq, and_assoc]

/-- C3: a pod bound to the node that carries the init label and the
ready annotation with literal value "true" is reported complete by the
Readiness Evaluator, and the node is reported ready, regardless of the
pod's container-readiness flags and its pod-level Ready condition. -/
theorem startupPodReady_readyAnn_overrides (pods : List Pod) (p : Pod)
    (hmem : p ∈ pods)
    (hlabel : lookupD p.labels StartPodLabelKey = StartPodLabelValue)
    (hann : lookupD p.anns StartPodReadyAnn = "true") :
    podStartupComplete p = true ∧ startupPodReadyIdx pods = true := by
  have hc : podStartupComplete p = true := by
    simp [podStartupComplete, hann]
  refine ⟨hc, ?_⟩
  simp only [startupPodReadyIdx, List.any_eq_true]
  exact ⟨p, hmem, by simp [hlabel, hc]⟩

/-- Witness for C3: `podAnnOnly` has all containers not ready and a
False Ready condition, yet its "true" ready annotation makes it and
its node ready. -/
theorem startupPodReady_readyAnn_overrides_witness :
    podStartupComplete podAnnOnly = true ∧ startupPodReadyIdx [podAnnOnly] = true :=
  startupPodReady_readyAnn_overrides [podAnnOnly] podAnnOnly
    (by simp) (by simp [podAnnOnly, lookupD]) (by simp [podAnnOnly, lookupD])

/-- C4: for a pod without the ready annotation set to "true", the
Readiness Evaluator reports it complete exactly when all containers
report ready and some pod-level Ready condition is True; in
particular, all containers ready with no True Ready condition is not
complete, and zero containers with no conditions is not complete. -/
theorem podStartupComplete_requires_ready (p : Pod)
    (hann : lookupD p.anns StartPodReadyAnn ≠ "true") :
    (podStartupComplete p = true ↔
        p.containerStatuses.all (fun r => r) = true ∧
          p.conditions.any podReadyCond = true) ∧
    (p.conditions.any podReadyCond = false → podStartupComplete p = false) ∧
    (p.containerStatuses = [] → p.conditions = [] → podStartupComplete p = false) := by
  have h1 : decide (lookupD p.anns StartPodReadyAnn = "true") = false :=
    decide_eq_false hann
  refine ⟨?_, ?_, ?_⟩
  · simp [podStartupComplete, h1, Bool.and_eq_true]
  · intro hcond
    simp [podStartupComplete, h1, hcond]
  · intro _ hcond
    simp [podStartupComplete, h1, hcond]

/-- Witness for C4: `podAllReadyNoCond` has every container ready but
no pod-level Ready condition, so it is not complete. -/
theorem podStartupComplete_requires_ready_witness :
    podStartupComplete podAllReadyNoCond = false :=
  (podStartupComplete_requires_ready podAllReadyNoCond (by decide)).2.1 rfl

/-- C5: when the pod List query backing the Readiness Evaluator's
fallback path fails, the evaluator returns that error, which is a
result distinct from both `ok true` and `ok false`: it never reports
ready on a query failure. -/
theorem startupPodReadyAPI_queryError (nodeName e : String) :
    startupPodReadyAPI nodeName (Except.error e) = Except.error e ∧
      ∀ b : Bool, startupPodReadyAPI nodeName (Except.error e) ≠ Except.ok b := by
  refine ⟨rfl, fun b h => ?_⟩
  simp [startupPodReadyAPI] at h

/-- C1: if on re-fetch the startup marker is already absent, the
Marker Remover succeeds as a no-op: zero update writes and the stored
node (annotations included, so any completion-record value) is
unchanged. Invoking the remover twice in sequence on a marked node
issues exactly one write: the first call writes once, the second is a
no-op leaving the state — and so the completion record — unchanged. -/
theorem removeStartupTaint_idem (store : Node) (conflicts : List Bool) (now now2 : Nat) :
    (HasStartupTaint store = false →
        removeStartupTaint store conflicts now = (store, 0, true)) ∧
    (HasStartupTaint store = true →
        removeStartupTaint store [] now = (removedNode store now, 1, true) ∧
        removeStartupTaint (removedNode store now) conflicts now2 =
          (removedNode store now, 0, true)) := by
  constructor
  · intro h
    exact retryRemove_noop 3 conflicts store now h
  · intro h
    exact ⟨removeStartupTaint_direct store now h,
      retryRemove_noop 3 conflicts (removedNode store now) now2
        (HasStartupTaint_removedNode store now)⟩

/-- Witness for C1 on concrete nodes: the unmarked `nodeBare` is left
untouched with zero writes; the marked `nodeMarked` is written once by
a first call, and a second call changes nothing and writes nothing. -/
theorem removeStartupTaint_idem_witness :
    removeStartupTaint nodeBare [] 3 = (nodeBare, 0, true) ∧
    removeStartupTaint nodeMarked [] 5 = (removedNode nodeMarked 5, 1, true) ∧
    removeStartupTaint (removedNode nodeMarked 5) [] 6 =
      (removedNode nodeMarked 5, 0, true) := by
  have h1 := removeStartupTaint_idem nodeBare [] 3 3
  have h2 := removeStartupTaint_idem nodeMarked [] 5 6
  exact ⟨h1.1 (by decide), (h2.2 (by decide)).1, (h2.2 (by decide)).2⟩

/-- C2: on a marked node, when the first update attempt hits a version
conflict and the second attempt succeeds, the final stored node has
the marker removed and the completion annotation set to the decimal
rendering of the Unix timestamp, with exactly one successful write,
and the caller sees success (the Boolean `true` standing for the nil
error). -/
theorem removeStartupTaint_conflictRecovery (store : Node) (now : Nat)
    (h : HasStartupTaint store = true) :
    removeStartupTaint store [true] now = (removedNode store now, 1, true) ∧
    HasStartupTaint (removedNode store now) = false ∧
    lookupD (removedNode store now).anns NodeStartupCompletedAnn = toString now := by
  refine ⟨?_, HasStartupTaint_removedNode store now, ?_⟩
  · have e1 : removeStartupTaint store [true] now = retryRemove 3 [] store now :=
      retryRemove_conflictStep 3 [] store now h
    rw [e1]
    exact retryRemove_success 2 store now h
  · exact lookupD_setAnn_self store.anns NodeStartupCompletedAnn (toString now)

/-- Witness for C2: the concrete marked node `nodeMarked`, with a
conflict on the first attempt, ends with the marker gone and the
completion annotation "9". -/
theorem removeStartupTaint_conflictRecovery_witness :
    removeStartupTaint nodeMarked [true] 9 = (removedNode nodeMarked 9, 1, true) ∧
    HasStartupTaint (removedNode nodeMarked 9) = false ∧
    lookupD (removedNode nodeMarked 9).anns NodeStartupCompletedAnn = "9" :=
  removeStartupTaint_conflictRecovery nodeMarked 9 (by decide)

/-- C9: a removal on a marked node filters out every taint matching
the startup triple (so the result carries no marker taint even when
duplicates were present), keeps all non-matching taints in their
original relative order (the filtered list), and changes no annotation
other than the completion-record key, which it sets to the timestamp. -/
theorem removeStartupTaint_frame (n : Node) (now : Nat) (h : HasStartupTaint n = true) :
    removeBody n now = some (removedNode n now) ∧
    (removedNode n now).taints = n.taints.filter (fun t => ! isStartupTaintMatch t) ∧
    HasStartupTaint (removedNode n now) = false ∧
    (∀ k, k ≠ NodeStartupCompletedAnn →
        lookupD (removedNode n now).anns k = lookupD n.anns k) ∧
    lookupD (removedNode n now).anns NodeStartupCompletedAnn = toString now := by
  refine ⟨removeBody_some n now h, rfl, HasStartupTaint_removedNode n now, ?_, ?_⟩
  · intro k hk
    exact lookupD_setAnn_ne n.anns NodeStartupCompletedAnn (toString now) k hk
  · exact lookupD_setAnn_self n.anns NodeStartupCompletedAnn (toString now)

/-- Witness for C9: `nodeMarked` carries the marker twice around
`tOther`; the removal keeps exactly `tOther`, yields a marker-free
node and preserves the pre-existing annotation at key "a". -/
theorem removeStartupTaint_frame_witness :
    (removedNode nodeMarked 7).taints = [tOther] ∧
    HasStartupTaint (removedNode nodeMarked 7) = false ∧
    lookupD (removedNode nodeMarked 7).anns "a" = "1" := by
  have h := removeStartupTaint_frame nodeMarked 7 (by decide)
  refine ⟨?_, h.2.2.1, ?_⟩
  · rw [h.2.1]
    decide
  · rw [h.2.2.2.1 "a" (by decide)]
    decide

/-- C6: the Backfill Sweep's per-node decision. A node with zero
taints, an empty completion-annotation read and no workload pods gains
the startup marker; it is left untouched when the marker is already
present, or the completion annotation reads non-empty, or the workload
check fired. The workload check fires exactly when some pod of the
node lives outside the trusted namespaces kube-system/kube-public. -/
theorem backfillTaint_decision (n : Node) (pods : List Pod) (w : Bool) :
    (n.taints = [] → lookupD n.anns NodeStartupCompletedAnn = "" →
        hasWorkloadPodsIdx pods = false →
        HasStartupTaint (backfillNode n (hasWorkloadPodsIdx pods)) = true) ∧
    (HasStartupTaint n = true → backfillNode n w = n) ∧
    (lookupD n.anns NodeStartupCompletedAnn ≠ "" → backfillNode n w = n) ∧
    (hasWorkloadPodsIdx pods = true → backfillNode n (hasWorkloadPodsIdx pods) = n) ∧
    ((∀ p ∈ pods, p.ns = "kube-system" ∨ p.ns = "kube-public") →
        hasWorkloadPodsIdx pods = false) ∧
    ((∃ p ∈ pods, p.ns ≠ "kube-system" ∧ p.ns ≠ "kube-public") →
        hasWorkloadPodsIdx pods = true) := by
  refine ⟨?_, ?_, ?_, ?_, ?_, ?_⟩
  · intro ht ha hw
    have hno : HasStartupTaint n = false := by
      rw [HasStartupTaint, ht]
      rfl
    rw [hw, backfillNode, if_neg (by simp [hno]), if_neg (by simp [ha]),
      if_neg (by simp)]
    rw [HasStartupTaint]
    simp [ht, isStartupTaintMatch, StartupTaint]
  · intro h2
    rw [backfillNode, if_pos h2]
  · intro h3
    by_cases hh : HasStartupTaint n = true
    · rw [backfillNode, if_pos hh]
    · rw [backfillNode, if_neg hh, if_pos (by simp [h3])]
  · intro h4
    rw [h4]
    exact backfillNode_workload_skip n
  · intro hall
    rw [hasWorkloadPodsIdx]
    simp only [List.any_eq_false]
    intro p hp
    rcases hall p hp with h | h <;> simp [h]
  · rintro ⟨p, hp, h1, h2⟩
    rw [hasWorkloadPodsIdx]
    simp only [List.any_eq_true]
    exact ⟨p, hp, by simp [h1, h2]⟩

/-- Witness for C6: the bare node with an empty pod set gains the
marker; with one pod in namespace "default" on the node, the sweep
leaves the node untouched. -/
theorem backfillTaint_decision_witness :
    HasStartupTaint (backfillNode nodeBare (hasWorkloadPodsIdx [])) = true ∧
    backfillNode nodeBare (hasWorkloadPodsIdx [podWorkload]) = nodeBare := by
  have h := backfillTaint_decision nodeBare [] false
  have h2 := backfillTaint_decision nodeBare [podWorkload] false
  exact ⟨h.1 rfl rfl rfl, h2.2.2.2.1 (by decide)⟩

/-- C10: when the pod List for a node fails in the workload check's
fallback path, the node counts as hosting workload pods, and the
Backfill Sweep leaves any such node untouched: no marker is ever added
to a node whose pods could not be enumerated. -/
theorem backfill_skips_on_list_error (n : Node) (e : String) :
    hasWorkloadPodsAPI (Except.error e) = true ∧
    backfillNode n (hasWorkloadPodsAPI (Except.error e)) = n :=
  ⟨rfl, backfillNode_workload_skip n⟩

/-- C8: the Reconciler's node handler either leaves the stored node
untouched with zero writes, or — only when the node carries the marker
and the Readiness Evaluator answered true — replaces it by the node
with the marker removed, with one write. Unmarked nodes, errored
readiness checks and not-ready answers always leave the node
untouched. The pod handler either touches no node or delegates to the
node handler (an unmarked fetched node is left untouched), so it
performs no other mutation either. -/
theorem reconciler_only_removes (node : Node) (ready : Except String Bool)
    (conflicts : List Bool) (now : Nat) :
    (handleNode node ready conflicts now = (node, 0) ∨
        (HasStartupTaint node = true ∧ ready = Except.ok true ∧
          handleNode node ready conflicts now = (removedNode node now, 1))) ∧
    (HasStartupTaint node = false → handleNode node ready conflicts now = (node, 0)) ∧
    (∀ e, ready = Except.error e → handleNode node ready conflicts now = (node, 0)) ∧
    (ready = Except.ok false → handleNode node ready conflicts now = (node, 0)) ∧
    (∀ p e, handlePod p (Except.error e) ready conflicts now = none) ∧
    (∀ p m, handlePod p (Except.ok m) ready conflicts now = none ∨
        handlePod p (Except.ok m) ready conflicts now = some (m, 0) ∨
        handlePod p (Except.ok m) ready conflicts now =
          some (handleNode m ready conflicts now)) := by
  refine ⟨?_, ?_, ?_, ?_, ?_, ?_⟩
  · by_cases hh : HasStartupTaint node = false
    · exact Or.inl (by rw [handleNode.eq_def, if_pos hh])
    · have hht : HasStartupTaint node = true := by
        simpa using hh
      cases ready with
      | error e => exact Or.inl (by rw [handleNode, if_neg (by simp [hht])])
      | ok b =>
          cases b with
          | false => exact Or.inl (by rw [handleNode, if_neg (by simp [hht])])
          | true =>
              rcases retryRemove_spec 4 conflicts node now hht with hr | hr
              · exact Or.inl (by simp [handleNode, hht, removeStartupTaint, hr])
              · exact Or.inr ⟨hht, rfl,
                  by simp [handleNode, hht, removeStartupTaint, hr]⟩
  · intro h
    rw [handleNode.eq_def, if_pos h]
  · intro e he
    subst he
    by_cases hh : HasStartupTaint node = false
    · simp [handleNode, hh]
    · simp [handleNode, hh]
  · intro he
    subst he
    by_cases hh : HasStartupTaint node = false
    · simp [handleNode, hh]
    · simp [handleNode, hh]
  · intro p e
    rw [handlePod]
    split
    · rfl
    · split
      · rfl
      · rfl
  · intro p m
    rw [handlePod]
    split
    · exact Or.inl rfl
    · split
      · exact Or.inl rfl
      · by_cases hm : HasStartupTaint m = true
        · exact Or.inr (Or.inr (by simp [hm]))
        · exact Or.inr (Or.inl (by simp [hm]))

/-- Witness for C8 on concrete nodes: the unmarked `nodeBare` is left
untouched even with a true readiness answer, and the marked
`nodeMarked` is left untouched on a not-ready answer. -/
theorem reconciler_only_removes_witness :
    handleNode nodeBare (Except.ok true) [] 0 = (nodeBare, 0) ∧
    handleNode nodeMarked (Except.ok false) [] 0 = (nodeMarked, 0) := by
  have h1 := reconciler_only_removes nodeBare (Except.ok true) [] 0
  have h2 := reconciler_only_removes nodeMarked (Except.ok false) [] 0
  exact ⟨h1.2.1 (by decide), h2.2.2.2.1 rfl⟩

end NodeStartup
